import Mathlib

/-!
Verification of the embedding service in `python_service/app.py`.

The service is embedded shallowly: the module-level globals `MODEL` and
`PREPROCESS` become an explicit `ServiceState` threaded through the
handlers, the environment-sourced configuration becomes an immutable
`ModelConfig`, and the external libraries (torch, open_clip, PIL) become
an `Env` record of oracle functions.  Float32 vectors are modelled by
exact rationals; the one place where exact arithmetic and IEEE floats
part ways (division by a zero norm) gets a dedicated NaN-aware model,
`fdiv`/`normalizeF`, below.  Instrumentation counters (`loadCalls`,
`createCalls`) and trace flags (`readInvoked`, `encodeInvoked`) record
which effects a handler performed, so that claims of the form "X is
never invoked" are statable.
-/

/-- Configuration read from the environment once at startup
(`MODEL_NAME`, `PRETRAINED`, `DEVICE` in app.py lines 22-24).
Immutable for the process lifetime. -/
structure ModelConfig where
  modelName : String
  pretrained : String
  device : String
deriving DecidableEq, Repr

/-- A decoded in-memory image as PIL presents it: a color mode string
(such as RGB, RGBA, L, P) plus opaque pixel content. -/
structure PILImage where
  mode : String
  content : Nat
deriving DecidableEq, Repr

/-- PIL `convert` called with argument RGB (app.py line 81): per PIL
semantics it re-expresses any source color mode as 3-channel RGB,
keeping the pixel content. -/
def convertRGB (img : PILImage) : PILImage :=
  { img with mode := "RGB" }

/-- The mutable module state of app.py: the globals `MODEL` (line 26) and
`PREPROCESS` (line 27), plus two instrumentation counters: `loadCalls`
counts invocations of `_load_model`, and `createCalls` counts executions
of the load procedure proper (`open_clip.create_model_and_transforms`,
lines 36-38). -/
structure ServiceState where
  modelVar : Option Nat
  preprocessVar : Option Nat
  loadCalls : Nat
  createCalls : Nat
deriving DecidableEq, Repr

/-- The state at interpreter start: both globals `None`, nothing loaded. -/
def initState : ServiceState :=
  { modelVar := none, preprocessVar := none, loadCalls := 0, createCalls := 0 }

/-- The external world the service runs against: whether torch/open_clip
imported (lines 12-18), the outcome of
`open_clip.create_model_and_transforms` (a model handle and a transform
handle, or the message of the exception it raises), PIL decoding of raw
bytes (`Image.open`, `none` when it raises), the preprocessing transform,
the model forward pass `encode_image`, and torch's Euclidean `norm`.
These are oracle functions: they are external library code, constrained
only by hypotheses in the theorems below. -/
structure Env where
  libsAvailable : Bool
  createModel : Except String (Nat × Nat)
  decode : List Nat → Option PILImage
  preprocessApply : Nat → PILImage → List ℚ
  encodeImage : Nat → List ℚ → List ℚ
  normOf : List ℚ → ℚ

/-- `_load_model` (app.py lines 30-41): raises when torch/open_clip are
absent (lines 32-33); when `MODEL` is already set, does nothing more
(line 34 guard); otherwise runs the load procedure once, setting both
globals on success (lines 35-41) and propagating the exception on
failure (globals left unset).  Returns the updated state and `some`
error message when an exception propagates. -/
def load_model (env : Env) (st : ServiceState) : ServiceState × Option String :=
  let st0 := { st with loadCalls := st.loadCalls + 1 }
  if env.libsAvailable = false then
    (st0, some "torch/open_clip not available. Please install dependencies.")
  else
    match st0.modelVar with
    | some _ => (st0, none)
    | none =>
      let st1 := { st0 with createCalls := st0.createCalls + 1 }
      match env.createModel with
      | Except.error e => (st1, some e)
      | Except.ok mp =>
        ({ st1 with modelVar := some mp.1, preprocessVar := some mp.2 }, none)

/-- The startup hook (app.py lines 44-50): attempts the load and catches
every exception, merely logging it, so the process always keeps serving. -/
def on_startup (env : Env) (st : ServiceState) : ServiceState :=
  (load_model env st).1

/-- Body of the `/health` response (app.py line 55). -/
structure HealthBody where
  ok : Bool
  model : String
  pretrained : String
  device : String
deriving DecidableEq, Repr

/-- `GET /health` (app.py lines 53-55): returns a plain dict, which
FastAPI serves with status 200; the handler touches neither the loader
nor the globals, so the state passes through unchanged. -/
def health (cfg : ModelConfig) (st : ServiceState) :
    (Nat × HealthBody) × ServiceState :=
  ((200, { ok := true, model := cfg.modelName, pretrained := cfg.pretrained,
           device := cfg.device }), st)

/-- `GET /config` (app.py lines 67-69): returns the three startup
configuration values as a dict, status 200, state untouched. -/
def configHandler (cfg : ModelConfig) (st : ServiceState) :
    (Nat × (String × String × String)) × ServiceState :=
  ((200, (cfg.modelName, cfg.pretrained, cfg.device)), st)

/-- Outcome of a `POST /embed` request: either the success JSON body
(app.py lines 93-98) or an HTTPException with status and detail. -/
inductive EmbedOutcome where
  | ok (embedding : List ℚ) (dim : Nat) (model : String) (pretrained : String)
  | err (status : Nat) (detail : String)
deriving DecidableEq, Repr

/-- HTTP status carried by an `/embed` outcome (FastAPI serves the
success JSON with 200). -/
def EmbedOutcome.statusOf : EmbedOutcome → Nat
  | .ok _ _ _ _ => 200
  | .err s _ => s

/-- Everything observable about one `/embed` request: the HTTP outcome,
the state after the request, whether the uploaded bytes were read and
decoded (lines 80-81), whether the model forward pass ran (line 90), and
the image handed to the preprocessing transform (line 86), when any. -/
structure EmbedTrace where
  response : EmbedOutcome
  state : ServiceState
  readInvoked : Bool
  encodeInvoked : Bool
  inferenceInput : Option PILImage
deriving DecidableEq, Repr

/-- The inference pipeline of app.py lines 86-92 once both globals are
set: apply the preprocessing transform to the (RGB-converted) image, run
the model forward pass, and divide the feature vector componentwise by
its Euclidean norm as computed by torch. -/
def inferVec (env : Env) (m p : Nat) (img : PILImage) : List ℚ :=
  let x := env.preprocessApply p img
  let feats := env.encodeImage m x
  feats.map (fun a => a / env.normOf feats)

/-- `POST /embed` (app.py lines 72-100).  First try block: `_load_model`,
any exception becomes status 500 (lines 74-77) before the upload is
touched.  Second try block: read the bytes and decode them through PIL
with an RGB conversion, any exception becomes status 400 (lines 79-83).
Third try block: preprocess, forward pass under no_grad, divide the
feature vector componentwise by its Euclidean norm, and answer with the
embedding list, its length as `dim`, and the configured names (lines
85-98); any exception there becomes status 500 (lines 99-100), which is
the branch taken when the globals are unset (`PREPROCESS(pil)` with
`PREPROCESS = None` raises).  The `.cuda` transfer (lines 87-88) is a
value-preserving device move and the `.float().cpu().numpy().astype`
chain (line 92) is a representation change, so neither appears in the
exact-arithmetic model.  Rational division returns 0 on a zero divisor,
which is sound only away from a zero norm; the zero-norm case is
modelled faithfully by `normalizeF` below. -/
def embed (cfg : ModelConfig) (env : Env) (st : ServiceState)
    (data : List Nat) : EmbedTrace :=
  match load_model env st with
  | (st1, some e) =>
    { response := EmbedOutcome.err 500 ("Model not available: " ++ e),
      state := st1, readInvoked := false, encodeInvoked := false,
      inferenceInput := none }
  | (st1, none) =>
    match env.decode data with
    | none =>
      { response := EmbedOutcome.err 400 "Invalid image", state := st1,
        readInvoked := true, encodeInvoked := false, inferenceInput := none }
    | some pil =>
      let rgb := convertRGB pil
      match st1.modelVar, st1.preprocessVar with
      | some m, some p =>
        let vec := inferVec env m p rgb
        { response := EmbedOutcome.ok vec vec.length cfg.modelName cfg.pretrained,
          state := st1, readInvoked := true, encodeInvoked := true,
          inferenceInput := some rgb }
      | _, _ =>
        { response := EmbedOutcome.err 500 "Embedding failed", state := st1,
          readInvoked := true, encodeInvoked := false, inferenceInput := some rgb }

/-- Sum of squares of a rational vector: the square of its Euclidean
norm, expressible exactly in rational arithmetic. -/
def sumSq (v : List ℚ) : ℚ :=
  (v.map (fun a => a * a)).sum

/-- A well-formedness condition on the module state that every reachable
state satisfies: `MODEL` and `PREPROCESS` are only ever assigned
together (lines 40-41), so whenever `MODEL` is set, `PREPROCESS` is too. -/
def StateWF (st : ServiceState) : Prop :=
  st.modelVar.isSome → st.preprocessVar.isSome

/-- An IEEE float scalar as far as division is concerned: `some q` is a
finite value, `none` is a non-finite value (NaN or a signed infinity).
torch tensor division raises no exception; dividing a finite value by
zero yields a non-finite result (NaN for 0/0, an infinity otherwise),
and any operation on a non-finite operand stays non-finite. -/
def fdiv (x y : Option ℚ) : Option ℚ :=
  match x, y with
  | some a, some b => if b = 0 then none else some (a / b)
  | _, _ => none

/-- Line 91 of app.py at IEEE-float fidelity: the feature vector divided
componentwise by the norm scalar, with `fdiv` as the division. -/
def normalizeF (v : List (Option ℚ)) (nrm : Option ℚ) : List (Option ℚ) :=
  v.map (fun a => fdiv a nrm)

/-- Concrete configuration used by the witnesses: the defaults of app.py
lines 22-24. -/
def cfgW : ModelConfig :=
  { modelName := "ViT-B-32", pretrained := "laion2b_s34b_b79k", device := "cpu" }

/-- A concrete decoded image (grayscale mode) used by the witnesses. -/
def pilW : PILImage :=
  { mode := "L", content := 7 }

/-- A concrete healthy environment for the witnesses: libraries import,
the load succeeds, every nonempty byte string decodes to `pilW`, the
model maps every input to the feature vector [3, 4], whose Euclidean
norm 5 the norm oracle reports. -/
def envW : Env :=
  { libsAvailable := true
    createModel := Except.ok (1, 2)
    decode := fun d => if d = [] then none else some pilW
    preprocessApply := fun _ _ => [0]
    encodeImage := fun _ _ => [3, 4]
    normOf := fun v => if v = [3, 4] then 5 else 0 }

/-- A concrete broken environment for the witnesses: torch/open_clip
failed to import, so every load attempt raises. -/
def envBad : Env :=
  { envW with libsAvailable := false }

/-- A concrete state in which a model is already loaded, for the
idempotence witness. -/
def stLoaded : ServiceState :=
  { modelVar := some 1, preprocessVar := some 2, loadCalls := 3, createCalls := 1 }

/-- Squared norm of a componentwise quotient: dividing every component
by c divides the sum of squares by c squared (also for c = 0, where
both sides vanish under rational division). -/
theorem sumSq_map_div (v : List ℚ) (c : ℚ) :
    sumSq (v.map (fun a => a / c)) = sumSq v / c ^ 2 := by
  induction v with
  | nil => simp [sumSq]
  | cons a t ih =>
    simp only [List.map_cons, sumSq, List.sum_cons] at *
    rw [ih, div_mul_div_comm, ← pow_two c, div_add_div_same]

/-- After a `_load_model` call that does not raise, both globals are set,
provided the starting state is well formed. -/
theorem load_model_ok_sets_globals (env : Env) (st : ServiceState)
    (hwf : StateWF st) (hok : (load_model env st).2 = none) :
    ∃ m p, (load_model env st).1.modelVar = some m ∧
      (load_model env st).1.preprocessVar = some p := by
  unfold load_model at *
  by_cases hlib : env.libsAvailable = false
  · simp [hlib] at hok
  · simp only [hlib, if_false] at *
    cases hm : st.modelVar with
    | some m =>
      have hp := hwf (by simp [hm])
      cases hp2 : st.preprocessVar with
      | some p => exact ⟨m, p, by simp [hm], by simp [hm, hp2]⟩
      | none => simp [hp2] at hp
    | none =>
      cases hc : env.createModel with
      | error e => simp [hm, hc] at hok
      | ok mp => exact ⟨mp.1, mp.2, by simp [hm, hc], by simp [hm, hc]⟩

/-- Claim C1: for every RGB-decodable image sent to POST /embed with the
model loaded (load does not raise, globals set) and a model whose
feature vectors have dimension D and nonzero Euclidean norm (the norm
oracle satisfying its defining equation), the response is the normalized
embedding: its length equals D and its squared Euclidean norm is
exactly 1 in exact arithmetic — hence the norm is within any tolerance
(such as 1e-5) of 1.0. -/
theorem embed_unit_norm (cfg : ModelConfig) (env : Env) (st : ServiceState)
    (data : List Nat) (pil : PILImage) (D m p : Nat)
    (hload : (load_model env st).2 = none)
    (hm : (load_model env st).1.modelVar = some m)
    (hp : (load_model env st).1.preprocessVar = some p)
    (hdec : env.decode data = some pil)
    (hdim : ∀ mm x, (env.encodeImage mm x).length = D)
    (hnorm : ∀ mm x, env.normOf (env.encodeImage mm x) ^ 2
      = sumSq (env.encodeImage mm x))
    (hnz : ∀ mm x, sumSq (env.encodeImage mm x) ≠ 0) :
    (embed cfg env st data).response
      = EmbedOutcome.ok (inferVec env m p (convertRGB pil))
          (inferVec env m p (convertRGB pil)).length
          cfg.modelName cfg.pretrained
    ∧ (inferVec env m p (convertRGB pil)).length = D
    ∧ sumSq (inferVec env m p (convertRGB pil)) = 1 := by
  rcases hlm : load_model env st with ⟨st1, lerr⟩
  rw [hlm] at hload hm hp
  simp only at hload hm hp
  subst hload
  refine ⟨?_, ?_, ?_⟩
  · simp [embed, hlm, hdec, hm, hp]
  · simp [inferVec, hdim]
  · simp only [inferVec]
    rw [sumSq_map_div, hnorm, div_self (hnz m _)]

/-- Claim C1 witness: a concrete healthy environment whose model maps
every input to the feature vector [3, 4] (norm 5); the embedding comes
back with length 2 and squared norm 1. -/
theorem embed_unit_norm_witness :
    (embed cfgW envW initState [1]).response
      = EmbedOutcome.ok (inferVec envW 1 2 (convertRGB pilW))
          (inferVec envW 1 2 (convertRGB pilW)).length
          cfgW.modelName cfgW.pretrained
    ∧ (inferVec envW 1 2 (convertRGB pilW)).length = 2
    ∧ sumSq (inferVec envW 1 2 (convertRGB pilW)) = 1 :=
  embed_unit_norm cfgW envW initState [1] pilW 2 1 2 (by decide) (by decide)
    (by decide) (by decide) (fun mm x => by simp [envW])
    (fun mm x => by norm_num [envW, sumSq]) (fun mm x => by norm_num [envW, sumSq])

/-- Claim C2: when the model load does not raise, a byte string that PIL
cannot decode makes POST /embed answer status 400, and the model forward
pass is never invoked. -/
theorem embed_invalid_image_400 (cfg : ModelConfig) (env : Env)
    (st : ServiceState) (data : List Nat)
    (hload : (load_model env st).2 = none)
    (hdec : env.decode data = none) :
    (embed cfg env st data).response = EmbedOutcome.err 400 "Invalid image"
    ∧ (embed cfg env st data).encodeInvoked = false := by
  rcases hlm : load_model env st with ⟨st1, lerr⟩
  rw [hlm] at hload
  simp only at hload
  subst hload
  simp [embed, hlm, hdec]

/-- Claim C2 witness: the empty upload in the healthy environment is
undecodable; the response is a 400 and the forward pass never ran. -/
theorem embed_invalid_image_400_witness :
    (embed cfgW envW initState []).response = EmbedOutcome.err 400 "Invalid image"
    ∧ (embed cfgW envW initState []).encodeInvoked = false :=
  embed_invalid_image_400 cfgW envW initState [] (by decide) (by decide)

/-- Claim C3: with the libraries importable, `_load_model` is idempotent.
If a model is already loaded, the call leaves both globals and the
`createCalls` counter untouched (only the invocation counter moves) and
raises nothing.  If no model is loaded, the load procedure executes
exactly once, and either it succeeds — the handle is stored and a future
call returns with the identical handle, without re-executing the load —
or it fails with the globals still unset. -/
theorem load_model_idempotent (env : Env) (st : ServiceState)
    (hlib : env.libsAvailable = true) :
    (∀ m, st.modelVar = some m →
      load_model env st = ({ st with loadCalls := st.loadCalls + 1 }, none)) ∧
    (st.modelVar = none →
      (load_model env st).1.createCalls = st.createCalls + 1 ∧
      ((load_model env st).2 = none →
        ∃ mp, env.createModel = Except.ok mp ∧
          (load_model env st).1.modelVar = some mp.1 ∧
          load_model env (load_model env st).1
            = ({ (load_model env st).1 with
                  loadCalls := (load_model env st).1.loadCalls + 1 }, none)) ∧
      (∀ e, (load_model env st).2 = some e →
        (load_model env st).1.modelVar = none)) := by
  constructor
  · intro m hm
    simp [load_model, hlib, hm]
  · intro hnone
    cases hc : env.createModel with
    | error e =>
      refine ⟨by simp [load_model, hlib, hnone, hc], ?_, ?_⟩
      · intro h
        simp [load_model, hlib, hnone, hc] at h
      · intro e2 he2
        simp [load_model, hlib, hnone, hc]
    | ok mp =>
      refine ⟨by simp [load_model, hlib, hnone, hc], ?_, ?_⟩
      · intro h
        exact ⟨mp, rfl, by simp [load_model, hlib, hnone, hc]⟩
      · intro e2 he2
        simp [load_model, hlib, hnone, hc] at he2

/-- Claim C3 witness: in a state holding model handle 1, a further
`_load_model` call changes nothing but the invocation counter and keeps
handle 1. -/
theorem load_model_idempotent_witness :
    load_model envW stLoaded
      = ({ stLoaded with loadCalls := stLoaded.loadCalls + 1 }, none) :=
  (load_model_idempotent envW stLoaded (by decide)).1 1 (by decide)

/-- Claim C4 counterexample: the claim requires the normalization step,
on a zero-norm feature vector, to either return the zero vector
unchanged or fail with a NormalizationError.  The code (app.py line 91)
divides unguarded; torch tensor division raises no exception, so the
failure arm is impossible, and under IEEE semantics 0/0 is NaN, so on
the zero vector of dimension 2 the result is the all-NaN vector, not
the zero vector: the claim as stated is false. -/
theorem normalize_zero_policy_counterexample :
    normalizeF [some 0, some 0] (some 0) ≠ [some 0, some 0]
    ∧ normalizeF [some 0, some 0] (some 0) = [none, none] := by
  decide

/-- Claim C4 as amended: on a zero-norm feature vector the unguarded
division of line 91 raises nothing and yields a non-finite (NaN) value
in every component, so the normalization step deterministically
produces the all-non-finite vector — neither the zero vector unchanged
nor a NormalizationError (the service process itself does not crash:
any downstream exception is caught at lines 99-100). -/
theorem normalize_zero_norm_nonfinite (n : Nat) (h : 0 < n) :
    normalizeF (List.replicate n (some 0)) (some 0) = List.replicate n none
    ∧ normalizeF (List.replicate n (some 0)) (some 0)
        ≠ List.replicate n (some (0 : ℚ)) := by
  constructor
  · simp [normalizeF, fdiv, List.map_replicate]
  · cases n with
    | zero => exact absurd h (lt_irrefl 0)
    | succ k => simp [normalizeF, fdiv, List.replicate_succ]

/-- Claim C4 witness: the amended statement at the zero vector of
dimension 2. -/
theorem normalize_zero_norm_nonfinite_witness :
    normalizeF (List.replicate 2 (some 0)) (some 0) = List.replicate 2 none
    ∧ normalizeF (List.replicate 2 (some 0)) (some 0)
        ≠ List.replicate 2 (some (0 : ℚ)) :=
  normalize_zero_norm_nonfinite 2 (by decide)

/-- Claim C5: GET /health answers status 200 with the
ok/model/pretrained/device body in every model-load state (the state is
universally quantified, covering loaded and load-failed; the handler
reads no loader state at all, which also covers the absent-library
case), and the state — in particular both load counters — passes
through unchanged, so handling /health never triggers a model load. -/
theorem health_always_ok :
    ∀ (cfg : ModelConfig) (st : ServiceState),
      health cfg st
        = ((200, ⟨true, cfg.modelName, cfg.pretrained, cfg.device⟩), st) :=
  fun _ _ => rfl

/-- Claim C6: when the load fails (libraries absent or the load
procedure raising), the startup hook still returns a state — the
process keeps serving, with nothing loaded — and the next /embed call
performs exactly one further `_load_model` attempt and surfaces the
failure as a status-500 response. -/
theorem startup_failure_deferred (cfg : ModelConfig) (env : Env)
    (data : List Nat)
    (hfail : env.libsAvailable = false
      ∨ ∃ e, env.createModel = Except.error e) :
    (on_startup env initState).modelVar = none
    ∧ (embed cfg env (on_startup env initState) data).response.statusOf = 500
    ∧ (embed cfg env (on_startup env initState) data).state.loadCalls
        = (on_startup env initState).loadCalls + 1 := by
  cases hb : env.libsAvailable with
  | false =>
    simp [on_startup, embed, load_model, hb, EmbedOutcome.statusOf, initState]
  | true =>
    rcases hfail with hlib | ⟨e, hc⟩
    · rw [hb] at hlib
      exact absurd hlib (by simp)
    · simp [on_startup, embed, load_model, hb, hc, EmbedOutcome.statusOf,
        initState]

/-- Claim C6 witness: the broken environment (libraries absent) at the
initial state, with an empty upload. -/
theorem startup_failure_deferred_witness :
    (on_startup envBad initState).modelVar = none
    ∧ (embed cfgW envBad (on_startup envBad initState) []).response.statusOf
        = 500
    ∧ (embed cfgW envBad (on_startup envBad initState) []).state.loadCalls
        = (on_startup envBad initState).loadCalls + 1 :=
  startup_failure_deferred cfgW envBad [] (Or.inl (by decide))

/-- Claim C7: every successful /embed response has its `dim` field equal
to the length of the embedding list and carries the configured model
name and pretrained tag (app.py lines 93-98). -/
theorem embed_dim_matches (cfg : ModelConfig) (env : Env)
    (st : ServiceState) (data : List Nat) (e : List ℚ) (d : Nat)
    (mn pt : String)
    (h : (embed cfg env st data).response = EmbedOutcome.ok e d mn pt) :
    d = e.length ∧ mn = cfg.modelName ∧ pt = cfg.pretrained := by
  rcases hlm : load_model env st with ⟨st1, lerr⟩
  simp only [embed, hlm] at h
  cases lerr with
  | some e2 => simp at h
  | none =>
    cases hdec : env.decode data with
    | none => simp [hdec] at h
    | some pil =>
      simp only [hdec] at h
      cases hm : st1.modelVar with
      | none => simp [hm] at h
      | some m =>
        cases hp : st1.preprocessVar with
        | none => simp [hm, hp] at h
        | some p =>
          simp only [hm, hp, EmbedOutcome.ok.injEq] at h
          obtain ⟨h1, h2, h3, h4⟩ := h
          subst h1
          exact ⟨h2.symm, h3.symm, h4.symm⟩

/-- Claim C7 witness: the concrete successful run in the healthy
environment, whose response has dim 2 and embedding of length 2. -/
theorem embed_dim_matches_witness :
    2 = (inferVec envW 1 2 (convertRGB pilW)).length
    ∧ cfgW.modelName = cfgW.modelName
    ∧ cfgW.pretrained = cfgW.pretrained :=
  embed_dim_matches cfgW envW initState [1]
    (inferVec envW 1 2 (convertRGB pilW)) 2 cfgW.modelName cfgW.pretrained
    (by simp [embed, load_model, initState, envW, inferVec, cfgW])

/-- Claim C8: /embed attempts the model load before touching the upload
(app.py lines 74-77 precede 79-83), so whenever the load raises, every
request — whatever its bytes, decodable or not — answers status 500
with the model-not-available detail, never 400, and the upload is never
read or decoded. -/
theorem embed_load_failure_500 (cfg : ModelConfig) (env : Env)
    (st : ServiceState) (data : List Nat) (e : String)
    (hload : (load_model env st).2 = some e) :
    (embed cfg env st data).response
      = EmbedOutcome.err 500 ("Model not available: " ++ e)
    ∧ (embed cfg env st data).readInvoked = false
    ∧ (embed cfg env st data).response.statusOf ≠ 400 := by
  rcases hlm : load_model env st with ⟨st1, lerr⟩
  rw [hlm] at hload
  simp only at hload
  subst hload
  simp [embed, hlm, EmbedOutcome.statusOf]

/-- Claim C8 witness: libraries absent, empty (undecodable) upload: the
response is the 500 model-not-available error, not a 400, and the bytes
were never read. -/
theorem embed_load_failure_500_witness :
    (embed cfgW envBad initState []).response
      = EmbedOutcome.err 500 ("Model not available: "
          ++ "torch/open_clip not available. Please install dependencies.")
    ∧ (embed cfgW envBad initState []).readInvoked = false
    ∧ (embed cfgW envBad initState []).response.statusOf ≠ 400 :=
  embed_load_failure_500 cfgW envBad initState []
    "torch/open_clip not available. Please install dependencies." (by decide)

/-- Claim C9: GET /config always returns exactly the three configuration
values fixed at startup, with the state untouched; any two calls within
one process lifetime (any two states) give the identical body. -/
theorem config_stable :
    ∀ (cfg : ModelConfig) (st st2 : ServiceState),
      configHandler cfg st
        = ((200, (cfg.modelName, cfg.pretrained, cfg.device)), st)
      ∧ (configHandler cfg st).1 = (configHandler cfg st2).1 :=
  fun _ _ _ => ⟨rfl, rfl⟩

/-- Claim C10: whatever color mode the uploaded image decodes to, the
image handed to the preprocessing transform (app.py line 86) is the
RGB-converted one: `Image.open(...).convert` with argument RGB runs on
every decodable upload (line 81), producing a 3-channel RGB image
before inference. -/
theorem decode_converted_to_rgb (cfg : ModelConfig) (env : Env)
    (st : ServiceState) (data : List Nat) (pil : PILImage)
    (hload : (load_model env st).2 = none)
    (hdec : env.decode data = some pil) :
    (embed cfg env st data).inferenceInput = some (convertRGB pil)
    ∧ (convertRGB pil).mode = "RGB" := by
  rcases hlm : load_model env st with ⟨st1, lerr⟩
  rw [hlm] at hload
  simp only at hload
  subst hload
  constructor
  · cases hm : st1.modelVar <;> cases hp : st1.preprocessVar <;>
      simp [embed, hlm, hdec, hm, hp]
  · rfl

/-- Claim C10 witness: a grayscale (mode L) decoded image reaches the
transform as its RGB conversion. -/
theorem decode_converted_to_rgb_witness :
    (embed cfgW envW initState [1]).inferenceInput = some (convertRGB pilW)
    ∧ (convertRGB pilW).mode = "RGB" :=
  decode_converted_to_rgb cfgW envW initState [1] pilW (by decide) (by decide)
